import Mathlib

/-!
Verification of the gas-estimation core of libevmasm (`src/libevmasm/GasMeter.h`).

The header file under `src/` contains the cost constants of namespace `GasCosts`,
the inline version-gated cost functions, the `GasConsumption` struct with its
inline `operator<`, and declarations (with documentation) of the member functions
whose bodies live in `GasMeter.cpp`, which is not part of the sources.  Those
bodies (`operator+=`, `runGas`, `wordGas`, `memoryGas`, `estimateMax`) are
modelled from the specification; each such definition carries a doc comment
starting with `Modelled from the spec:`.

Machine integers: the C++ amount type is `u256` (256-bit unsigned).  Amounts are
embedded as `Nat`; the `2 ^ 256` bound appears explicitly exactly where the
specification makes overflow significant (the collapse of finite addition to the
unbounded value).
-/

namespace GasCosts

/-! Cost constants, from `src/libevmasm/GasMeter.h` lines 41-98. -/

def stackLimit : Nat := 1024
def tier0Gas : Nat := 0
def tier1Gas : Nat := 1
def tier2Gas : Nat := 1
def tier3Gas : Nat := 2
def tier4Gas : Nat := 3
def tier5Gas : Nat := 4
def tier6Gas : Nat := 7
def tier7Gas : Nat := 0
def expGas : Nat := 2
def keccak256Gas : Nat := 4
def keccak256WordGas : Nat := 1
def sstoreSetGas : Nat := 1250
def sstoreResetGas : Nat := 310
def sstoreRefundGas : Nat := 950
def jumpdestGas : Nat := 1
def logGas : Nat := 24
def logDataGas : Nat := 1
def logTopicGas : Nat := 24
def createGas : Nat := 2000
def callStipend : Nat := 1000
def callValueTransferGas : Nat := 550
def callNewAccountGas : Nat := 1600
def selfdestructRefundGas : Nat := 1500
def memoryGas : Nat := 1
def quadCoeffDiv : Nat := 1024
def createDataGas : Nat := 12
def txGas : Nat := 25000
def txCreateGas : Nat := 20000
def txDataZeroGas : Nat := 1
def txDataNonZeroGas : Nat := 4
def copyGas : Nat := 1
def balanceOfGas : Nat := 50
def transferAssetGas : Nat := 550

end GasCosts

/-- Modelled from the spec: the protocol-version type
(`libsolidity/interface/EVMVersion.h`) is not under the sources; the spec
describes it as an immutable, totally ordered value identifying a point in the
chain's upgrade history, compared against named milestones
(`tangerineWhistle`, `spuriousDragon`, in upgrade order). -/
inductive EVMVersion where
  | homestead
  | tangerineWhistle
  | spuriousDragon
  | byzantium
  | constantinople
  deriving DecidableEq, Repr, Fintype

/-- Position of a version in the upgrade order. -/
def EVMVersion.idx : EVMVersion → Nat
  | .homestead => 0
  | .tangerineWhistle => 1
  | .spuriousDragon => 2
  | .byzantium => 3
  | .constantinople => 4

instance : LE EVMVersion := ⟨fun a b => a.idx ≤ b.idx⟩

instance : LT EVMVersion := ⟨fun a b => a.idx < b.idx⟩

instance (a b : EVMVersion) : Decidable (a ≤ b) :=
  inferInstanceAs (Decidable (a.idx ≤ b.idx))

instance (a b : EVMVersion) : Decidable (a < b) :=
  inferInstanceAs (Decidable (a.idx < b.idx))

namespace GasCosts

/-! Version-gated cost functions, from `src/libevmasm/GasMeter.h` lines 50-87.
The C++ condition `_evmVersion >= EVMVersion::tangerineWhistle()` is embedded
as `EVMVersion.tangerineWhistle ≤ v`. -/

/-- `extCodeGas` (GasMeter.h lines 50-53). -/
def extCodeGas (v : EVMVersion) : Nat :=
  if EVMVersion.tangerineWhistle ≤ v then 45 else 20

/-- `balanceGas` (GasMeter.h lines 54-57). -/
def balanceGas (v : EVMVersion) : Nat :=
  if EVMVersion.tangerineWhistle ≤ v then 25 else 20

/-- `expByteGas` (GasMeter.h lines 59-62). -/
def expByteGas (v : EVMVersion) : Nat :=
  if EVMVersion.spuriousDragon ≤ v then 4 else 10

/-- `sloadGas` (GasMeter.h lines 65-68). -/
def sloadGas (v : EVMVersion) : Nat :=
  if EVMVersion.tangerineWhistle ≤ v then 20 else 50

/-- `callGas` (GasMeter.h lines 77-80). -/
def callGas (v : EVMVersion) : Nat :=
  if EVMVersion.tangerineWhistle ≤ v then 45 else 40

/-- `selfdestructGas` (GasMeter.h lines 84-87). -/
def selfdestructGas (v : EVMVersion) : Nat :=
  if EVMVersion.tangerineWhistle ≤ v then 350 else 0

end GasCosts

namespace GasMeter

/-- `GasMeter::GasConsumption` (GasMeter.h lines 110-123): a `u256` amount
paired with an `isInfinite` flag.  Field order matches the struct. -/
structure GasConsumption where
  value : Nat
  isInfinite : Bool
  deriving DecidableEq, Repr

/-- The default-constructed `GasConsumption()` (GasMeter.h line 112: both
constructor arguments default to `0` and `false`). -/
def GasConsumption.mkDefault : GasConsumption := ⟨0, false⟩

/-- `GasConsumption::infinite()` (GasMeter.h line 114): payload 0, flag set. -/
def GasConsumption.infinite : GasConsumption := ⟨0, true⟩

/-- `GasConsumption::operator<` (GasMeter.h lines 117-119): comparison of the
tuples `(isInfinite, value)`, i.e. lexicographic with `false < true` on the
flag and magnitude order on the `u256` amount. -/
def GasConsumption.lt (a b : GasConsumption) : Bool :=
  (!a.isInfinite && b.isInfinite) ||
    ((a.isInfinite == b.isInfinite) && decide (a.value < b.value))

/-- Modelled from the spec: `GasConsumption::operator+=` is declared at
GasMeter.h line 116 but its body (in `GasMeter.cpp`) is not under the sources.
Spec section 4.2: the result is unbounded if either input is unbounded;
otherwise it is the arithmetic sum, with overflow past the 256-bit range of the
amount type folding to unbounded rather than wrapping. -/
def GasConsumption.add (a b : GasConsumption) : GasConsumption :=
  if a.isInfinite || b.isInfinite then GasConsumption.infinite
  else if 2 ^ 256 ≤ a.value + b.value then GasConsumption.infinite
  else ⟨a.value + b.value, false⟩

/-- A symbolic value reference (`ExpressionClasses::Id`): an opaque identifier
owned by the external state tracker. -/
abbrev ExprId := Nat

/-- Modelled from the spec: the external symbolic state tracker
(`KnownState` / `ExpressionClasses`, not under the sources) is consumed only
through the query "resolve this reference to a statically known constant, or
report unknown". -/
abbrev Resolver := ExprId → Option Nat

/-- Modelled from the spec: `GasMeter::wordGas` is declared at GasMeter.h
lines 141-142 (returns `_multiplier * (_value + 31) / 32` if `_value` is a
known constant and infinite otherwise); its body is not under the sources.
Spec section 4.4: resolve the size reference; if not statically known return
unbounded, otherwise `rate * ceil(size / 32)` by exact integer ceiling
division. -/
def wordGas (resolve : Resolver) (multiplier : Nat) (valueId : ExprId) : GasConsumption :=
  match resolve valueId with
  | none => GasConsumption.infinite
  | some v => ⟨multiplier * ((v + 31) / 32), false⟩

/-- Modelled from the spec, section 4.3: total expansion cost of a memory
region covering offsets below `pos`, priced per words of 32 bytes:
`memoryGas * words + words^2 / quadCoeffDiv`. -/
def memCost (pos : Nat) : Nat :=
  GasCosts.memoryGas * ((pos + 31) / 32) +
    ((pos + 31) / 32) * ((pos + 31) / 32) / GasCosts.quadCoeffDiv

/-- Modelled from the spec, section 4.3(a), known-position case: charge only
the marginal growth beyond the current high-water mark and advance the mark to
the new maximum.  Returns (cost, new mark). -/
def memoryGasValue (mark : Nat) (pos : Nat) : GasConsumption × Nat :=
  (⟨memCost (max mark pos) - memCost mark, false⟩, max mark pos)

/-- Modelled from the spec: `GasMeter::memoryGas(Id)` is declared at
GasMeter.h line 145; its body is not under the sources.  Spec section 4.3(a):
resolve the absolute offset through the state tracker; if statically known,
charge the marginal growth and advance the mark; otherwise return unbounded
with the mark unchanged. -/
def memoryGasId (resolve : Resolver) (mark : Nat) (posId : ExprId) : GasConsumption × Nat :=
  match resolve posId with
  | none => (GasConsumption.infinite, mark)
  | some v => memoryGasValue mark v

/-- Modelled from the spec: `GasMeter::memoryGas(int, int)` is declared at
GasMeter.h line 148; its body is not under the sources.  Spec section 4.3(b):
a size statically known to be zero contributes zero cost regardless of the
offset (checked first); otherwise both offset and size must be known and the
end offset `offset + size` is priced by the known-position rule; if either is
unknown, unbounded with the mark unchanged. -/
def memoryGasOffSize (resolve : Resolver) (mark : Nat) (offId sizeId : ExprId) :
    GasConsumption × Nat :=
  match resolve sizeId with
  | some 0 => (⟨0, false⟩, mark)
  | some sz =>
      match resolve offId with
      | some off => memoryGasValue mark (off + sz)
      | none => (GasConsumption.infinite, mark)
  | none => (GasConsumption.infinite, mark)

/-- The fixed-cost tiers of version-invariant instructions.  Spec section 4.1
assigns each such instruction one of 7 tier costs, enumerated as data. -/
inductive Tier where
  | zero
  | base
  | veryLow
  | low
  | mid
  | high
  | ext
  deriving DecidableEq, Repr

/-- Modelled from the spec: `GasMeter::runGas` is declared at GasMeter.h
line 138 ("gas costs for simple instructions with constant gas costs"); its
body is not under the sources.  Spec section 4.1: each version-invariant
instruction's tier is a fixed assignment to one of the 7 tier constants of
`GasCosts` (GasMeter.h lines 42-48). -/
def runGas : Tier → Nat
  | .zero => GasCosts.tier0Gas
  | .base => GasCosts.tier1Gas
  | .veryLow => GasCosts.tier2Gas
  | .low => GasCosts.tier3Gas
  | .mid => GasCosts.tier4Gas
  | .high => GasCosts.tier5Gas
  | .ext => GasCosts.tier6Gas

/-- Number of bytes needed to represent a `u256` value (used for the
exponentiation per-byte surcharge). -/
def bytesRequired (x : Nat) : Nat :=
  if x = 0 then 0 else Nat.log 256 x + 1

/-- Modelled from the spec, sections 4.5 and 2: one straight-line assembly
item, abstracted to the instruction families the estimator dispatches on.
Operands that the estimator reads through the state tracker are carried as
symbolic value references. -/
inductive Item where
  | push
  | tag
  | tierOp (t : Tier)
  | balance
  | extcodesize
  | sload
  | selfdestruct
  | exp (exponentId : ExprId)
  | keccak256 (offId sizeId : ExprId)
  | copy (offId sizeId : ExprId)
  | extcodecopy (offId sizeId : ExprId)
  | mload (posId : ExprId)
  | mstore (posId : ExprId)
  | log (topics : Nat) (offId sizeId : ExprId)
  | create (offId sizeId : ExprId)
  | call (valueId inOffId inSizeId outOffId outSizeId : ExprId)
  | sstore (priorId : ExprId)
  deriving DecidableEq, Repr

/-- Modelled from the spec: `GasMeter::estimateMax` is declared at GasMeter.h
lines 129-132; its body is not under the sources.  Spec section 4.5: dispatch
on the instruction family, combine the tier or version-gated base cost with
the dynamic word/memory/account contributions via the absorbing addition, and
advance the memory high-water mark through the memory-cost model.  The state
tracker's own advance (`feedItem`) is external and does not touch the mark.
For a persistent-storage write the spec fixes the bound `max(set, reset)` for
an unknown prior value; the model charges that same sound bound when the prior
is known, which the spec leaves open.  For a message call with external costs
included, the callee's execution cannot be bounded in general, so that
contribution is unbounded (absorbing the stipend).  Returns
(cost, new high-water mark). -/
def estimateMax (v : EVMVersion) (resolve : Resolver) (mark : Nat) (item : Item)
    (includeExternalCosts : Bool) : GasConsumption × Nat :=
  match item with
  | .push => (⟨runGas .veryLow, false⟩, mark)
  | .tag => (⟨GasCosts.jumpdestGas, false⟩, mark)
  | .tierOp t => (⟨runGas t, false⟩, mark)
  | .balance => (⟨GasCosts.balanceGas v, false⟩, mark)
  | .extcodesize => (⟨GasCosts.extCodeGas v, false⟩, mark)
  | .sload => (⟨GasCosts.sloadGas v, false⟩, mark)
  | .selfdestruct => (⟨GasCosts.selfdestructGas v, false⟩, mark)
  | .exp exponentId =>
      let surcharge : GasConsumption :=
        match resolve exponentId with
        | some e => ⟨GasCosts.expByteGas v * bytesRequired e, false⟩
        | none => GasConsumption.infinite
      (GasConsumption.add ⟨GasCosts.expGas, false⟩ surcharge, mark)
  | .keccak256 offId sizeId =>
      let m := memoryGasOffSize resolve mark offId sizeId
      (GasConsumption.add ⟨GasCosts.keccak256Gas, false⟩
        (GasConsumption.add (wordGas resolve GasCosts.keccak256WordGas sizeId) m.1), m.2)
  | .copy offId sizeId =>
      let m := memoryGasOffSize resolve mark offId sizeId
      (GasConsumption.add ⟨runGas .veryLow, false⟩
        (GasConsumption.add (wordGas resolve GasCosts.copyGas sizeId) m.1), m.2)
  | .extcodecopy offId sizeId =>
      let m := memoryGasOffSize resolve mark offId sizeId
      (GasConsumption.add ⟨GasCosts.extCodeGas v, false⟩
        (GasConsumption.add (wordGas resolve GasCosts.copyGas sizeId) m.1), m.2)
  | .mload posId =>
      let m := memoryGasId resolve mark posId
      (GasConsumption.add ⟨runGas .veryLow, false⟩ m.1, m.2)
  | .mstore posId =>
      let m := memoryGasId resolve mark posId
      (GasConsumption.add ⟨runGas .veryLow, false⟩ m.1, m.2)
  | .log topics offId sizeId =>
      let m := memoryGasOffSize resolve mark offId sizeId
      (GasConsumption.add ⟨GasCosts.logGas + GasCosts.logTopicGas * topics, false⟩
        (GasConsumption.add (wordGas resolve GasCosts.logDataGas sizeId) m.1), m.2)
  | .create offId sizeId =>
      let m := memoryGasOffSize resolve mark offId sizeId
      (GasConsumption.add ⟨GasCosts.createGas, false⟩
        (GasConsumption.add (wordGas resolve GasCosts.createDataGas sizeId) m.1), m.2)
  | .call valueId inOffId inSizeId outOffId outSizeId =>
      let valueCost : GasConsumption :=
        match resolve valueId with
        | some 0 => ⟨0, false⟩
        | _ => ⟨GasCosts.callValueTransferGas, false⟩
      let mIn := memoryGasOffSize resolve mark inOffId inSizeId
      let mOut := memoryGasOffSize resolve mIn.2 outOffId outSizeId
      let external : GasConsumption :=
        if includeExternalCosts then GasConsumption.infinite else ⟨0, false⟩
      (GasConsumption.add ⟨GasCosts.callGas v, false⟩
        (GasConsumption.add valueCost
          (GasConsumption.add ⟨GasCosts.callNewAccountGas, false⟩
            (GasConsumption.add mIn.1 (GasConsumption.add mOut.1 external)))), mOut.2)
  | .sstore priorId =>
      match resolve priorId with
      | none => (⟨max GasCosts.sstoreSetGas GasCosts.sstoreResetGas, false⟩, mark)
      | some _ => (⟨max GasCosts.sstoreSetGas GasCosts.sstoreResetGas, false⟩, mark)

/-- The high-water mark after feeding a sequence of items, in execution order,
to one estimator instance (spec section 2: strictly subsequent items on one
straight-line block). -/
def runSequence (v : EVMVersion) (resolve : Resolver) (flag : Bool) (mark : Nat) :
    List Item → Nat
  | [] => mark
  | i :: is => runSequence v resolve flag (estimateMax v resolve mark i flag).2 is

end GasMeter

/-! ## Theorems -/

/-- Helper: on two finite operands, the modelled combination reduces to the
overflow test on the arithmetic sum. -/
theorem GasMeter.GasConsumption.add_finite_finite (a b : GasMeter.GasConsumption)
    (ha : a.isInfinite = false) (hb : b.isInfinite = false) :
    GasMeter.GasConsumption.add a b =
      if 2 ^ 256 ≤ a.value + b.value then GasMeter.GasConsumption.infinite
      else ⟨a.value + b.value, false⟩ := by
  unfold GasMeter.GasConsumption.add
  rw [ha, hb]
  simp

/-- Helper: the unbounded value absorbs on the left. -/
theorem GasMeter.GasConsumption.add_infinite_left (x : GasMeter.GasConsumption) :
    GasMeter.GasConsumption.add GasMeter.GasConsumption.infinite x =
      GasMeter.GasConsumption.infinite := by
  unfold GasMeter.GasConsumption.add
  simp [GasMeter.GasConsumption.infinite]

/-- Helper: the unbounded value absorbs on the right. -/
theorem GasMeter.GasConsumption.add_infinite_right (x : GasMeter.GasConsumption) :
    GasMeter.GasConsumption.add x GasMeter.GasConsumption.infinite =
      GasMeter.GasConsumption.infinite := by
  unfold GasMeter.GasConsumption.add
  simp [GasMeter.GasConsumption.infinite]

open GasMeter in
/-- C1: Cost-value combination is absorbing in the unbounded element: for every
cost value `x`, combining the unbounded value with `x` (in either order) yields
an unbounded value, and combining two finite values whose arithmetic sum does
not overflow yields the finite arithmetic sum. -/
theorem GasConsumption_add_absorbing_and_finite (x a b : GasConsumption)
    (ha : a.isInfinite = false) (hb : b.isInfinite = false)
    (hsum : a.value + b.value < 2 ^ 256) :
    GasConsumption.add GasConsumption.infinite x = GasConsumption.infinite ∧
    GasConsumption.add x GasConsumption.infinite = GasConsumption.infinite ∧
    GasConsumption.add a b = ⟨a.value + b.value, false⟩ := by
  refine ⟨GasConsumption.add_infinite_left x, GasConsumption.add_infinite_right x, ?_⟩
  rw [GasConsumption.add_finite_finite a b ha hb, if_neg (Nat.not_le.mpr hsum)]

open GasMeter in
/-- Witness for C1 at concrete inputs. -/
theorem GasConsumption_add_absorbing_and_finite_witness :
    GasConsumption.add GasConsumption.infinite ⟨5, false⟩ = GasConsumption.infinite ∧
    GasConsumption.add ⟨5, false⟩ GasConsumption.infinite = GasConsumption.infinite ∧
    GasConsumption.add ⟨2, false⟩ ⟨3, false⟩ = ⟨5, false⟩ :=
  GasConsumption_add_absorbing_and_finite ⟨5, false⟩ ⟨2, false⟩ ⟨3, false⟩ rfl rfl
    (by norm_num)

open GasMeter in
/-- C2: combining two finite values whose arithmetic sum exceeds the 256-bit
range of the amount type yields the unbounded value, never a wrapped-around
finite amount. -/
theorem GasConsumption_add_overflow_infinite (a b : GasConsumption)
    (ha : a.isInfinite = false) (hb : b.isInfinite = false)
    (hov : 2 ^ 256 ≤ a.value + b.value) :
    GasConsumption.add a b = GasConsumption.infinite ∧
    (GasConsumption.add a b).isInfinite = true := by
  rw [GasConsumption.add_finite_finite a b ha hb, if_pos hov]
  exact ⟨rfl, rfl⟩

open GasMeter in
/-- Witness for C2: the largest finite amount plus one overflows to unbounded. -/
theorem GasConsumption_add_overflow_infinite_witness :
    GasConsumption.add ⟨2 ^ 256 - 1, false⟩ ⟨1, false⟩ = GasConsumption.infinite ∧
    (GasConsumption.add ⟨2 ^ 256 - 1, false⟩ ⟨1, false⟩).isInfinite = true :=
  GasConsumption_add_overflow_infinite ⟨2 ^ 256 - 1, false⟩ ⟨1, false⟩ rfl rfl
    (by norm_num)

open GasMeter in
/-- C4 counterexample: the claim that any two unbounded values are mutually
equal under `operator<` fails — the unbounded value with payload 0 compares
strictly less than an unbounded value with payload 1, because the comparison
is lexicographic on `(isInfinite, value)` and the public constructor admits
unbounded values with nonzero payloads. -/
theorem GasConsumption_lt_unbounded_payloads_counterexample :
    GasConsumption.lt ⟨0, true⟩ ⟨1, true⟩ = true := by decide

open GasMeter in
/-- C4 (amended): `operator<` places every unbounded value strictly above
every finite value and orders values with equal flags (two finite, or two
unbounded) by numeric magnitude; hence two unbounded values are mutually
equal exactly when their payloads coincide, as for values built by
`infinite()`. -/
theorem GasConsumption_lt_spec (a b : GasConsumption) :
    (a.isInfinite = false → b.isInfinite = true →
      GasConsumption.lt a b = true ∧ GasConsumption.lt b a = false) ∧
    (a.isInfinite = b.isInfinite →
      (GasConsumption.lt a b = true ↔ a.value < b.value)) := by
  obtain ⟨av, af⟩ := a
  obtain ⟨bv, bf⟩ := b
  constructor
  · rintro rfl rfl
    simp [GasConsumption.lt]
  · rintro rfl
    simp [GasConsumption.lt]

open GasMeter in
/-- Witness for C4's amended theorem at concrete inputs. -/
theorem GasConsumption_lt_spec_witness :
    (GasConsumption.lt ⟨3, false⟩ ⟨7, true⟩ = true ∧
      GasConsumption.lt ⟨7, true⟩ ⟨3, false⟩ = false) ∧
    (GasConsumption.lt ⟨3, false⟩ ⟨7, false⟩ = true ↔ (3 : Nat) < 7) :=
  ⟨(GasConsumption_lt_spec ⟨3, false⟩ ⟨7, true⟩).1 rfl rfl,
   (GasConsumption_lt_spec ⟨3, false⟩ ⟨7, false⟩).2 rfl⟩

/-- C5: the storage-load cost is exactly 50 below the access-repricing
milestone (`tangerineWhistle`) and exactly 20 at or above it, and no other
aspect of the version affects the result. -/
theorem sloadGas_spec (v w : EVMVersion) :
    (¬ EVMVersion.tangerineWhistle ≤ v → GasCosts.sloadGas v = 50) ∧
    (EVMVersion.tangerineWhistle ≤ v → GasCosts.sloadGas v = 20) ∧
    ((EVMVersion.tangerineWhistle ≤ v ↔ EVMVersion.tangerineWhistle ≤ w) →
      GasCosts.sloadGas v = GasCosts.sloadGas w) := by
  refine ⟨fun h => by simp [GasCosts.sloadGas, h], fun h => by simp [GasCosts.sloadGas, h],
    fun h => ?_⟩
  by_cases hv : EVMVersion.tangerineWhistle ≤ v
  · simp [GasCosts.sloadGas, hv, h.mp hv]
  · have hw : ¬ EVMVersion.tangerineWhistle ≤ w := fun hw => hv (h.mpr hw)
    simp [GasCosts.sloadGas, hv, hw]

/-- Witness for C5 at concrete versions on both sides of the milestone. -/
theorem sloadGas_spec_witness :
    GasCosts.sloadGas EVMVersion.homestead = 50 ∧
    GasCosts.sloadGas EVMVersion.spuriousDragon = 20 :=
  ⟨(sloadGas_spec EVMVersion.homestead EVMVersion.homestead).1 (by decide),
   (sloadGas_spec EVMVersion.spuriousDragon EVMVersion.spuriousDragon).2.1 (by decide)⟩

open GasMeter in
/-- C10: a default-constructed `GasConsumption` is the finite value 0,
`infinite()` has the flag set with numeric payload 0, and the two-argument
constructor admits values with the flag set and a nonzero payload. -/
theorem GasConsumption_construction_spec :
    GasConsumption.mkDefault.value = 0 ∧
    GasConsumption.mkDefault.isInfinite = false ∧
    GasConsumption.infinite.isInfinite = true ∧
    GasConsumption.infinite.value = 0 ∧
    (GasConsumption.mk 37 true).isInfinite = true ∧
    (GasConsumption.mk 37 true).value = 37 :=
  ⟨rfl, rfl, rfl, rfl, rfl, rfl⟩

open GasMeter in
/-- C3: for every multiplier rate and size reference, `wordGas` returns the
finite value `rate * ceil(size / 32)` by exact integer ceiling division
(equivalently `rate * ((size + 31) / 32)` in truncating arithmetic) when the
state tracker resolves the reference to a known constant, and the unbounded
value otherwise.  The final conjunct states exactness of the ceiling:
`v ⌈/⌉ 32` is the least `k` with `v ≤ 32 * k`. -/
theorem wordGas_spec (resolve : Resolver) (multiplier : Nat) (sizeId : ExprId) :
    (resolve sizeId = none → wordGas resolve multiplier sizeId = GasConsumption.infinite) ∧
    (∀ v, resolve sizeId = some v →
      wordGas resolve multiplier sizeId = ⟨multiplier * (v ⌈/⌉ 32), false⟩ ∧
      v ⌈/⌉ 32 = (v + 31) / 32 ∧
      ∀ k, v ⌈/⌉ 32 ≤ k ↔ v ≤ 32 * k) := by
  constructor
  · intro h
    simp [wordGas, h]
  · intro v h
    have hw : wordGas resolve multiplier sizeId = ⟨multiplier * ((v + 31) / 32), false⟩ := by
      simp [wordGas, h]
    have hc : v ⌈/⌉ 32 = (v + 31) / 32 := by
      rw [Nat.ceilDiv_eq_add_pred_div]
      norm_num
    refine ⟨by rw [hw, hc], hc, fun k => ?_⟩
    rw [hc]
    omega

open GasMeter in
/-- Witness for C3 at a concrete resolver: an unknown reference is unbounded
and a known 33-byte size prices as 2 words. -/
theorem wordGas_spec_witness :
    wordGas (fun _ => none) 1 0 = GasConsumption.infinite ∧
    wordGas (fun _ => some 33) 1 0 = ⟨1 * (33 ⌈/⌉ 32), false⟩ :=
  ⟨(wordGas_spec (fun _ => none) 1 0).1 rfl,
   ((wordGas_spec (fun _ => some 33) 1 0).2 33 rfl).1⟩

open GasMeter in
/-- C6: the fixed-cost lookup for version-invariant instructions returns one
of the 7 tier costs of `GasCosts`, whose values are `{0, 1, 1, 2, 3, 4, 7}`. -/
theorem runGas_tier_values (t : Tier) :
    runGas t ∈ [GasCosts.tier0Gas, GasCosts.tier1Gas, GasCosts.tier2Gas, GasCosts.tier3Gas,
      GasCosts.tier4Gas, GasCosts.tier5Gas, GasCosts.tier6Gas] ∧
    [GasCosts.tier0Gas, GasCosts.tier1Gas, GasCosts.tier2Gas, GasCosts.tier3Gas,
      GasCosts.tier4Gas, GasCosts.tier5Gas, GasCosts.tier6Gas] = [0, 1, 1, 2, 3, 4, 7] := by
  refine ⟨?_, rfl⟩
  cases t <;> decide

open GasMeter in
/-- C7: estimating a persistent-storage write whose prior stored value is not
statically known reports `max(sstoreSetGas, sstoreResetGas) = max(1250, 310)
= 1250`, the larger write constant, never the smaller, and the refund constant
is not subtracted from the bound. -/
theorem estimateMax_sstore_unknown_prior (v : EVMVersion) (resolve : Resolver)
    (mark : Nat) (priorId : ExprId) (flag : Bool) (h : resolve priorId = none) :
    (estimateMax v resolve mark (.sstore priorId) flag).1 =
      ⟨max GasCosts.sstoreSetGas GasCosts.sstoreResetGas, false⟩ ∧
    max GasCosts.sstoreSetGas GasCosts.sstoreResetGas = GasCosts.sstoreSetGas ∧
    GasCosts.sstoreSetGas = 1250 ∧
    GasCosts.sstoreResetGas = 310 ∧
    (estimateMax v resolve mark (.sstore priorId) flag).1.value ≠
      GasCosts.sstoreSetGas - GasCosts.sstoreRefundGas := by
  have he : estimateMax v resolve mark (.sstore priorId) flag =
      (⟨max GasCosts.sstoreSetGas GasCosts.sstoreResetGas, false⟩, mark) := by
    simp [estimateMax, h]
  rw [he]
  refine ⟨rfl, by decide, rfl, rfl, ?_⟩
  show max GasCosts.sstoreSetGas GasCosts.sstoreResetGas ≠
    GasCosts.sstoreSetGas - GasCosts.sstoreRefundGas
  decide

open GasMeter in
/-- Witness for C7 at a concrete resolver reporting every reference unknown. -/
theorem estimateMax_sstore_unknown_prior_witness :
    (estimateMax EVMVersion.homestead (fun _ => none) 0 (.sstore 0) true).1 =
      ⟨max GasCosts.sstoreSetGas GasCosts.sstoreResetGas, false⟩ ∧
    max GasCosts.sstoreSetGas GasCosts.sstoreResetGas = GasCosts.sstoreSetGas ∧
    GasCosts.sstoreSetGas = 1250 ∧
    GasCosts.sstoreResetGas = 310 ∧
    (estimateMax EVMVersion.homestead (fun _ => none) 0 (.sstore 0) true).1.value ≠
      GasCosts.sstoreSetGas - GasCosts.sstoreRefundGas :=
  estimateMax_sstore_unknown_prior EVMVersion.homestead (fun _ => none) 0 0 true rfl

/-- Helper: the known-position memory charge never lowers the mark. -/
theorem GasMeter.memoryGasValue_mark_le (mark pos : Nat) :
    mark ≤ (GasMeter.memoryGasValue mark pos).2 :=
  Nat.le_max_left mark pos

/-- Helper: the single-offset memory charge never lowers the mark. -/
theorem GasMeter.memoryGasId_mark_le (resolve : GasMeter.Resolver) (mark : Nat)
    (posId : GasMeter.ExprId) :
    mark ≤ (GasMeter.memoryGasId resolve mark posId).2 := by
  cases h : resolve posId with
  | none => simp [GasMeter.memoryGasId, h]
  | some v =>
      simp only [GasMeter.memoryGasId, h]
      exact GasMeter.memoryGasValue_mark_le mark v

/-- Helper: the offset/size memory charge never lowers the mark. -/
theorem GasMeter.memoryGasOffSize_mark_le (resolve : GasMeter.Resolver) (mark : Nat)
    (offId sizeId : GasMeter.ExprId) :
    mark ≤ (GasMeter.memoryGasOffSize resolve mark offId sizeId).2 := by
  unfold GasMeter.memoryGasOffSize
  cases hs : resolve sizeId with
  | none => simp
  | some sz =>
      cases sz with
      | zero => simp
      | succ n =>
          cases ho : resolve offId with
          | none => simp
          | some off =>
              simp only []
              exact GasMeter.memoryGasValue_mark_le mark (off + (n + 1))

open GasMeter in
/-- C8: the memory high-water mark is monotonically non-decreasing: every
single `estimateMax` call returns a mark at least the mark it started from,
and hence along any sequence of calls on one estimator instance the mark after
each call is at least the mark before it (and the final mark is at least the
initial one). -/
theorem estimateMax_mark_monotone :
    (∀ (v : EVMVersion) (resolve : Resolver) (mark : Nat) (item : Item) (flag : Bool),
      mark ≤ (estimateMax v resolve mark item flag).2) ∧
    (∀ (v : EVMVersion) (resolve : Resolver) (flag : Bool) (items : List Item) (mark : Nat),
      mark ≤ runSequence v resolve flag mark items) := by
  have step : ∀ (v : EVMVersion) (resolve : Resolver) (mark : Nat) (item : Item) (flag : Bool),
      mark ≤ (estimateMax v resolve mark item flag).2 := by
    intro v resolve mark item flag
    cases item with
    | push => exact le_rfl
    | tag => exact le_rfl
    | tierOp t => exact le_rfl
    | balance => exact le_rfl
    | extcodesize => exact le_rfl
    | sload => exact le_rfl
    | selfdestruct => exact le_rfl
    | exp e => exact le_rfl
    | keccak256 offId sizeId => exact memoryGasOffSize_mark_le resolve mark offId sizeId
    | copy offId sizeId => exact memoryGasOffSize_mark_le resolve mark offId sizeId
    | extcodecopy offId sizeId => exact memoryGasOffSize_mark_le resolve mark offId sizeId
    | mload posId => exact memoryGasId_mark_le resolve mark posId
    | mstore posId => exact memoryGasId_mark_le resolve mark posId
    | log n offId sizeId => exact memoryGasOffSize_mark_le resolve mark offId sizeId
    | create offId sizeId => exact memoryGasOffSize_mark_le resolve mark offId sizeId
    | call valueId inOffId inSizeId outOffId outSizeId =>
        exact le_trans (memoryGasOffSize_mark_le resolve mark inOffId inSizeId)
          (memoryGasOffSize_mark_le resolve _ outOffId outSizeId)
    | sstore priorId =>
        cases h : resolve priorId with
        | none => simp [estimateMax, h]
        | some p => simp [estimateMax, h]
  refine ⟨step, fun v resolve flag items => ?_⟩
  induction items with
  | nil => intro mark; exact le_rfl
  | cons i is ih =>
      intro mark
      exact le_trans (step v resolve mark i flag) (ih _)

/-- C9: the version-gated costs are: external-code query 20 before
`tangerineWhistle` and 45 at/after; balance 20 before and 25 at/after; call 40
before and 45 at/after; self-destruct 0 before and 350 at/after; the
exponentiation per-byte surcharge 10 before `spuriousDragon` and 4 at/after;
and every gated cost (including the storage load) depends on the version only
through these two milestone comparisons. -/
theorem versionGatedCosts_spec (v : EVMVersion) :
    (¬ EVMVersion.tangerineWhistle ≤ v →
      GasCosts.extCodeGas v = 20 ∧ GasCosts.balanceGas v = 20 ∧
      GasCosts.callGas v = 40 ∧ GasCosts.selfdestructGas v = 0) ∧
    (EVMVersion.tangerineWhistle ≤ v →
      GasCosts.extCodeGas v = 45 ∧ GasCosts.balanceGas v = 25 ∧
      GasCosts.callGas v = 45 ∧ GasCosts.selfdestructGas v = 350) ∧
    (¬ EVMVersion.spuriousDragon ≤ v → GasCosts.expByteGas v = 10) ∧
    (EVMVersion.spuriousDragon ≤ v → GasCosts.expByteGas v = 4) ∧
    (∀ w, (EVMVersion.tangerineWhistle ≤ v ↔ EVMVersion.tangerineWhistle ≤ w) →
      (EVMVersion.spuriousDragon ≤ v ↔ EVMVersion.spuriousDragon ≤ w) →
      GasCosts.extCodeGas v = GasCosts.extCodeGas w ∧
      GasCosts.balanceGas v = GasCosts.balanceGas w ∧
      GasCosts.callGas v = GasCosts.callGas w ∧
      GasCosts.selfdestructGas v = GasCosts.selfdestructGas w ∧
      GasCosts.expByteGas v = GasCosts.expByteGas w ∧
      GasCosts.sloadGas v = GasCosts.sloadGas w) := by
  cases v <;> decide

/-- Witness for C9 on both sides of each milestone. -/
theorem versionGatedCosts_spec_witness :
    (GasCosts.extCodeGas EVMVersion.homestead = 20 ∧
      GasCosts.balanceGas EVMVersion.homestead = 20 ∧
      GasCosts.callGas EVMVersion.homestead = 40 ∧
      GasCosts.selfdestructGas EVMVersion.homestead = 0) ∧
    (GasCosts.extCodeGas EVMVersion.tangerineWhistle = 45 ∧
      GasCosts.balanceGas EVMVersion.tangerineWhistle = 25 ∧
      GasCosts.callGas EVMVersion.tangerineWhistle = 45 ∧
      GasCosts.selfdestructGas EVMVersion.tangerineWhistle = 350) ∧
    GasCosts.expByteGas EVMVersion.tangerineWhistle = 10 ∧
    GasCosts.expByteGas EVMVersion.spuriousDragon = 4 ∧
    GasCosts.sloadGas EVMVersion.byzantium = GasCosts.sloadGas EVMVersion.constantinople :=
  ⟨(versionGatedCosts_spec EVMVersion.homestead).1 (by decide),
   (versionGatedCosts_spec EVMVersion.tangerineWhistle).2.1 (by decide),
   (versionGatedCosts_spec EVMVersion.tangerineWhistle).2.2.1 (by decide),
   (versionGatedCosts_spec EVMVersion.spuriousDragon).2.2.2.1 (by decide),
   ((versionGatedCosts_spec EVMVersion.byzantium).2.2.2.2 EVMVersion.constantinople
      (by decide) (by decide)).2.2.2.2.2⟩
